import Mathlib

/-!
Formal model of the BabylonCpp runtime core.

A shallow embedding, over exact rational arithmetic, of the parts of the
engine exercised by the specification: the bone transform hierarchy
(`bones/bone.cpp`), the ray/box intersection routine (`culling/ray.cpp`),
the device state cache (`engine/engine.cpp`) and the solid particle
system (`particles/solid_particle_system.cpp`).  The C++ `float` values
are modelled as rationals; the external 4x4 matrix/vector math kernel
(Babylon's `Matrix` and `Vector3` classes, assumed correct by the spec)
is reproduced here with its row-major, row-vector conventions.
-/

namespace Babylon

/-- A 3-component vector, mirroring `BABYLON::Vector3` with exact entries. -/
structure Vector3 where
  x : ℚ
  y : ℚ
  z : ℚ
deriving DecidableEq, Repr, Inhabited

/-- A homogeneous 4-component row vector used for transform algebra. -/
structure Vec4 where
  x : ℚ
  y : ℚ
  z : ℚ
  w : ℚ
deriving DecidableEq, Repr, Inhabited

/-- A 4x4 matrix stored row-major as in `BABYLON::Matrix` (`m[0]`..`m[15]`,
translation in `m[12]`,`m[13]`,`m[14]`). -/
structure Matrix4 where
  m0 : ℚ
  m1 : ℚ
  m2 : ℚ
  m3 : ℚ
  m4 : ℚ
  m5 : ℚ
  m6 : ℚ
  m7 : ℚ
  m8 : ℚ
  m9 : ℚ
  m10 : ℚ
  m11 : ℚ
  m12 : ℚ
  m13 : ℚ
  m14 : ℚ
  m15 : ℚ
deriving DecidableEq, Repr, Inhabited

namespace Matrix4

/-- Identity matrix (`Matrix::Identity`). -/
def identity : Matrix4 :=
  ⟨1, 0, 0, 0, 0, 1, 0, 0, 0, 0, 1, 0, 0, 0, 0, 1⟩

/-- Matrix product with Babylon's convention: `a.multiplyToRef(b, r)` yields
`r = a ⬝ b` in the row-major, row-vector sense (a point is transformed by `a`
first, then by `b`). -/
def mul (a b : Matrix4) : Matrix4 where
  m0 := a.m0 * b.m0 + a.m1 * b.m4 + a.m2 * b.m8 + a.m3 * b.m12
  m1 := a.m0 * b.m1 + a.m1 * b.m5 + a.m2 * b.m9 + a.m3 * b.m13
  m2 := a.m0 * b.m2 + a.m1 * b.m6 + a.m2 * b.m10 + a.m3 * b.m14
  m3 := a.m0 * b.m3 + a.m1 * b.m7 + a.m2 * b.m11 + a.m3 * b.m15
  m4 := a.m4 * b.m0 + a.m5 * b.m4 + a.m6 * b.m8 + a.m7 * b.m12
  m5 := a.m4 * b.m1 + a.m5 * b.m5 + a.m6 * b.m9 + a.m7 * b.m13
  m6 := a.m4 * b.m2 + a.m5 * b.m6 + a.m6 * b.m10 + a.m7 * b.m14
  m7 := a.m4 * b.m3 + a.m5 * b.m7 + a.m6 * b.m11 + a.m7 * b.m15
  m8 := a.m8 * b.m0 + a.m9 * b.m4 + a.m10 * b.m8 + a.m11 * b.m12
  m9 := a.m8 * b.m1 + a.m9 * b.m5 + a.m10 * b.m9 + a.m11 * b.m13
  m10 := a.m8 * b.m2 + a.m9 * b.m6 + a.m10 * b.m10 + a.m11 * b.m14
  m11 := a.m8 * b.m3 + a.m9 * b.m7 + a.m10 * b.m11 + a.m11 * b.m15
  m12 := a.m12 * b.m0 + a.m13 * b.m4 + a.m14 * b.m8 + a.m15 * b.m12
  m13 := a.m12 * b.m1 + a.m13 * b.m5 + a.m14 * b.m9 + a.m15 * b.m13
  m14 := a.m12 * b.m2 + a.m13 * b.m6 + a.m14 * b.m10 + a.m15 * b.m14
  m15 := a.m12 * b.m3 + a.m13 * b.m7 + a.m14 * b.m11 + a.m15 * b.m15

/-- Pure scaling matrix (`Matrix::FromValuesToRef(x,0,0,0, 0,y,0,0, 0,0,z,0,
0,0,0,1)` as built by `Bone::scale`). -/
def scaling (x y z : ℚ) : Matrix4 :=
  ⟨x, 0, 0, 0, 0, y, 0, 0, 0, 0, z, 0, 0, 0, 0, 1⟩

/-- Determinant of a 4x4 matrix (expansion by 2x2 complementary minors). -/
def det (a : Matrix4) : ℚ :=
  let b00 := a.m0 * a.m5 - a.m1 * a.m4
  let b01 := a.m0 * a.m6 - a.m2 * a.m4
  let b02 := a.m0 * a.m7 - a.m3 * a.m4
  let b03 := a.m1 * a.m6 - a.m2 * a.m5
  let b04 := a.m1 * a.m7 - a.m3 * a.m5
  let b05 := a.m2 * a.m7 - a.m3 * a.m6
  let b06 := a.m8 * a.m13 - a.m9 * a.m12
  let b07 := a.m8 * a.m14 - a.m10 * a.m12
  let b08 := a.m8 * a.m15 - a.m11 * a.m12
  let b09 := a.m9 * a.m14 - a.m10 * a.m13
  let b10 := a.m9 * a.m15 - a.m11 * a.m13
  let b11 := a.m10 * a.m15 - a.m11 * a.m14
  b00 * b11 - b01 * b10 + b02 * b09 + b03 * b08 - b04 * b07 + b05 * b06

/-- Matrix inverse by the adjugate formula, mirroring `Matrix::invert` of the
external math kernel.  (On a singular matrix the rational division `1/0 = 0`
yields a junk value, as the C++ float version yields non-finite entries.) -/
def invert (a : Matrix4) : Matrix4 :=
  let b00 := a.m0 * a.m5 - a.m1 * a.m4
  let b01 := a.m0 * a.m6 - a.m2 * a.m4
  let b02 := a.m0 * a.m7 - a.m3 * a.m4
  let b03 := a.m1 * a.m6 - a.m2 * a.m5
  let b04 := a.m1 * a.m7 - a.m3 * a.m5
  let b05 := a.m2 * a.m7 - a.m3 * a.m6
  let b06 := a.m8 * a.m13 - a.m9 * a.m12
  let b07 := a.m8 * a.m14 - a.m10 * a.m12
  let b08 := a.m8 * a.m15 - a.m11 * a.m12
  let b09 := a.m9 * a.m14 - a.m10 * a.m13
  let b10 := a.m9 * a.m15 - a.m11 * a.m13
  let b11 := a.m10 * a.m15 - a.m11 * a.m14
  let dt := b00 * b11 - b01 * b10 + b02 * b09 + b03 * b08 - b04 * b07 + b05 * b06
  let inv := 1 / dt
  { m0 := (a.m5 * b11 - a.m6 * b10 + a.m7 * b09) * inv
    m1 := (-a.m1 * b11 + a.m2 * b10 - a.m3 * b09) * inv
    m2 := (a.m13 * b05 - a.m14 * b04 + a.m15 * b03) * inv
    m3 := (-a.m9 * b05 + a.m10 * b04 - a.m11 * b03) * inv
    m4 := (-a.m4 * b11 + a.m6 * b08 - a.m7 * b07) * inv
    m5 := (a.m0 * b11 - a.m2 * b08 + a.m3 * b07) * inv
    m6 := (-a.m12 * b05 + a.m14 * b02 - a.m15 * b01) * inv
    m7 := (a.m8 * b05 - a.m10 * b02 + a.m11 * b01) * inv
    m8 := (a.m4 * b10 - a.m5 * b08 + a.m7 * b06) * inv
    m9 := (-a.m0 * b10 + a.m1 * b08 - a.m3 * b06) * inv
    m10 := (a.m12 * b04 - a.m13 * b02 + a.m15 * b00) * inv
    m11 := (-a.m8 * b04 + a.m9 * b02 - a.m11 * b00) * inv
    m12 := (-a.m4 * b09 + a.m5 * b07 - a.m6 * b06) * inv
    m13 := (a.m0 * b09 - a.m1 * b07 + a.m2 * b06) * inv
    m14 := (-a.m12 * b03 + a.m13 * b01 - a.m14 * b00) * inv
    m15 := (a.m8 * b03 - a.m9 * b01 + a.m10 * b00) * inv }

/-- The translation row `(m12, m13, m14, m15)` as a homogeneous row vector. -/
def row3 (a : Matrix4) : Vec4 :=
  ⟨a.m12, a.m13, a.m14, a.m15⟩

/-- Overwrite the translation entries `m12`,`m13`,`m14` (as `Bone::setPosition`
does on the local matrix). -/
def withTranslationXYZ (a : Matrix4) (v : Vector3) : Matrix4 :=
  { a with m12 := v.x, m13 := v.y, m14 := v.z }

/-- Add to the translation entries (as `Bone::translate` does in local space). -/
def addTranslationXYZ (a : Matrix4) (v : Vector3) : Matrix4 :=
  { a with m12 := a.m12 + v.x, m13 := a.m13 + v.y, m14 := a.m14 + v.z }

/-- Zero the translation entries (`tmat.m[12] = 0; ...` in `Bone::translate`). -/
def withZeroTranslation (a : Matrix4) : Matrix4 :=
  { a with m12 := 0, m13 := 0, m14 := 0 }

end Matrix4

namespace Vec4

/-- Row vector times matrix, the action underlying Babylon's coordinate
transforms. -/
def rowMul (v : Vec4) (a : Matrix4) : Vec4 where
  x := v.x * a.m0 + v.y * a.m4 + v.z * a.m8 + v.w * a.m12
  y := v.x * a.m1 + v.y * a.m5 + v.z * a.m9 + v.w * a.m13
  z := v.x * a.m2 + v.y * a.m6 + v.z * a.m10 + v.w * a.m14
  w := v.x * a.m3 + v.y * a.m7 + v.z * a.m11 + v.w * a.m15

end Vec4

/-- Lift a point to a homogeneous row vector with `w = 1`. -/
def Vector3.toVec4 (v : Vector3) : Vec4 :=
  ⟨v.x, v.y, v.z, 1⟩

/-- `Vector3::TransformCoordinatesToRef`: transform a point by a matrix,
including the homogeneous divide by the resulting `w`. -/
def transformCoordinates (v : Vector3) (m : Matrix4) : Vector3 :=
  let rx := v.x * m.m0 + v.y * m.m4 + v.z * m.m8 + m.m12
  let ry := v.x * m.m1 + v.y * m.m5 + v.z * m.m9 + m.m13
  let rz := v.x * m.m2 + v.y * m.m6 + v.z * m.m10 + m.m14
  let rw := v.x * m.m3 + v.y * m.m7 + v.z * m.m11 + m.m15
  ⟨rx / rw, ry / rw, rz / rw⟩

/-- Translation matrix (`Matrix::Translation`). -/
def Matrix4.translation (x y z : ℚ) : Matrix4 :=
  ⟨1, 0, 0, 0, 0, 1, 0, 0, 0, 0, 1, 0, x, y, z, 1⟩

/-! ### Bone transform hierarchy (`bones/bone.cpp`) -/

/-- The per-bone state tracked by the embedding: local matrix (`_matrix`),
base matrix (`_baseMatrix`), absolute transform (`_absoluteTransform`),
inverted absolute transform (`_invertedAbsoluteTransform`) and the cumulative
scale decomposition (`_scaleMatrix`, `_scaleVector`). -/
structure BoneState where
  localM : Matrix4
  baseM : Matrix4
  absM : Matrix4
  invAbsM : Matrix4
  scaleM : Matrix4
  scaleV : Vector3
deriving DecidableEq, Repr, Inhabited

mutual

/-- A bone together with its list of child bones (`Bone::children`). -/
inductive Bone : Type where
  | mk : BoneState → BoneForest → Bone

/-- The ordered children of a bone. -/
inductive BoneForest : Type where
  | nil : BoneForest
  | cons : Bone → BoneForest → BoneForest

end

/-- The state held by a bone node. -/
def Bone.state : Bone → BoneState
  | .mk s _ => s

/-- The children of a bone node. -/
def Bone.children : Bone → BoneForest
  | .mk _ cs => cs

/-- Apply a function to every bone of a forest (a C++ `for (auto& child : children)` loop). -/
def forestMap (g : Bone → Bone) : BoneForest → BoneForest
  | .nil => .nil
  | .cons c rest => .cons (g c) (forestMap g rest)

/-- The absolute transform `Bone::computeAbsoluteTransforms` assigns: for a
non-root bone `_matrix ⬝ parent absolute transform`; for a root bone the local
matrix, combined with the skeleton pose matrix when one is present. -/
def absOf (pose parentAbs : Option Matrix4) (localM : Matrix4) : Matrix4 :=
  match parentAbs with
  | some pa => localM.mul pa
  | none =>
    match pose with
    | some pm => localM.mul pm
    | none => localM

mutual

/-- `Bone::computeAbsoluteTransforms`: recompute `_absoluteTransform` from the
local matrix and the parent's absolute transform (or the skeleton pose matrix
at the root), then recurse into the children.  Note that it does NOT touch
`_invertedAbsoluteTransform`. -/
def computeAbsoluteTransforms (pose : Option Matrix4) (parentAbs : Option Matrix4) :
    Bone → Bone
  | .mk s cs =>
    .mk { s with absM := absOf pose parentAbs s.localM }
      (computeAbsoluteTransformsForest pose (absOf pose parentAbs s.localM) cs)

/-- The child loop of `Bone::computeAbsoluteTransforms`. -/
def computeAbsoluteTransformsForest (pose : Option Matrix4) (parentAbs : Matrix4) :
    BoneForest → BoneForest
  | .nil => .nil
  | .cons c rest =>
    .cons (computeAbsoluteTransforms pose (some parentAbs) c)
      (computeAbsoluteTransformsForest pose parentAbs rest)

end

mutual

/-- `Bone::_updateDifferenceMatrix()`: recompute `_absoluteTransform` from the
BASE matrix and the parent's absolute transform, refresh
`_invertedAbsoluteTransform` as its exact inverse, and recurse.  This is the
only routine that writes the inverted absolute transform. -/
def updateDifferenceMatrix (parentAbs : Option Matrix4) : Bone → Bone
  | .mk s cs =>
    let abs := match parentAbs with
      | some pa => s.baseM.mul pa
      | none => s.baseM
    .mk { s with absM := abs, invAbsM := abs.invert }
      (updateDifferenceMatrixForest abs cs)

/-- The child loop of `Bone::_updateDifferenceMatrix`. -/
def updateDifferenceMatrixForest (parentAbs : Matrix4) : BoneForest → BoneForest
  | .nil => .nil
  | .cons c rest =>
    .cons (updateDifferenceMatrix (some parentAbs) c)
      (updateDifferenceMatrixForest parentAbs rest)

end

/-- `Bone::translate(vec, Space::LOCAL)`: add the vector to the local matrix's
translation row.  (`markAsDirty` only bumps a render counter.) -/
def translateLocal (vec : Vector3) : Bone → Bone
  | .mk s cs => .mk { s with localM := s.localM.addTranslationXYZ vec } cs

/-- The per-child fix-up loop of `Bone::scale`: `cm = cm ⬝ scaleMat⁻¹` followed
by `cm.m[12] *= x; cm.m[13] *= y; cm.m[14] *= z`. -/
def scaleChildFix (x y z : ℚ) (scaleMatInv : Matrix4) : Bone → Bone
  | .mk s cs =>
    let cm := s.localM.mul scaleMatInv
    .mk { s with localM := { cm with m12 := cm.m12 * x, m13 := cm.m13 * y, m14 := cm.m14 * z } } cs

/-- `Bone::scale(x, y, z, scaleChildren)`.  The bone's local matrix becomes
`locMat ⬝ locMat⁻¹ ⬝ scaleMat ⬝ locMat` (three in-place `multiplyToRef` calls),
the cumulative scale matrix/vector are multiplied by the new factors, each
child's local matrix is rewritten by `scaleChildFix`, the subtree's absolute
transforms are recomputed, and only then, when `scaleChildren` is set, the same
scale is applied recursively to every child.  `fuel` bounds the recursion depth
of that final loop (the C++ recursion terminates because the tree is finite);
all behaviour is in the `fuel + 1` case. -/
def scaleBone : Nat → Option Matrix4 → ℚ → ℚ → ℚ → Bool → Option Matrix4 → Bone → Bone
  | 0, _, _, _, _, _, _, b => b
  | fuel + 1, pose, x, y, z, scaleChildren, parentAbs, .mk s cs =>
    let origLocMat := s.localM
    let origLocMatInv := origLocMat.invert
    let scaleMat := Matrix4.scaling x y z
    let locMat := ((s.localM.mul origLocMatInv).mul scaleMat).mul origLocMat
    let s1 : BoneState :=
      { s with
        scaleM := s.scaleM.mul scaleMat
        scaleV := ⟨s.scaleV.x * x, s.scaleV.y * y, s.scaleV.z * z⟩
        localM := locMat
        absM := match parentAbs with
          | some pa => locMat.mul pa
          | none => locMat }
    let scaleMatInv := scaleMat.invert
    let cs1 := forestMap (scaleChildFix x y z scaleMatInv) cs
    let b2 := computeAbsoluteTransforms pose parentAbs (.mk s1 cs1)
    if scaleChildren then
      match b2 with
      | .mk s2 cs2 =>
        .mk s2 (forestMap (fun c => scaleBone fuel pose x y z true (some s2.absM) c) cs2)
    else
      b2

/-- World-space position of a bone as read by `Bone::getPositionToRef` with
`Space::WORLD` and no mesh: the translation row of the absolute transform. -/
def BoneState.absolutePosition (s : BoneState) : Vector3 :=
  ⟨s.absM.m12, s.absM.m13, s.absM.m14⟩

/-! ### Per-bone world-space edits (`Bone::translate` / `Bone::setPosition`) -/

/-- A bone viewed against its parent context for the world-space operations:
its local matrix and its parent's (already recomputed) absolute transform,
`none` when the bone is a root whose `_parent` is null. -/
structure BoneRef where
  localM : Matrix4
  parentAbs : Option Matrix4
deriving DecidableEq, Repr

/-- Combine a matrix with an optional bound mesh's world matrix, as
`tmat.copyFrom(..); tmat.multiplyToRef(*mesh->getWorldMatrix(), tmat)` does. -/
def combineWithMesh (m : Matrix4) : Option Matrix4 → Matrix4
  | some w => m.mul w
  | none => m

/-- `Bone::setPosition(position, Space::WORLD, mesh)`.  The C++ first forces a
skeleton-wide absolute-transform recompute, then unconditionally reads
`_parent->getAbsoluteTransform()`; for a root bone this dereferences a null
pointer, modelled as `none`.  Otherwise the position is mapped through the
inverse of the parent transform (combined with the mesh world matrix when
present) and written into the local matrix's translation row. -/
def setPositionWorld (b : BoneRef) (position : Vector3) (mesh : Option Matrix4) :
    Option BoneRef :=
  match b.parentAbs with
  | none => none
  | some pa =>
    let tmat := combineWithMesh pa mesh
    let vec := transformCoordinates position tmat.invert
    some { b with localM := b.localM.withTranslationXYZ vec }

/-- `Bone::translate(vec, Space::WORLD, mesh)`: like `setPositionWorld` but the
combined parent matrix has its translation zeroed before inversion, and the
transformed vector is added to (not assigned to) the local translation. -/
def translateWorld (b : BoneRef) (vec : Vector3) (mesh : Option Matrix4) :
    Option BoneRef :=
  match b.parentAbs with
  | none => none
  | some pa =>
    let tmat := (combineWithMesh pa mesh).withZeroTranslation
    let tvec := transformCoordinates vec tmat.invert
    some { b with localM := b.localM.addTranslationXYZ tvec }

/-- `Bone::getPositionToRef(result, Space::WORLD, mesh)`: recompute the bone's
absolute transform (the skeleton-wide recompute the C++ triggers), combine it
with the mesh world matrix when present, and read the translation entries. -/
def getPositionWorld (pose : Option Matrix4) (b : BoneRef) (mesh : Option Matrix4) :
    Vector3 :=
  let tmat := combineWithMesh (absOf pose b.parentAbs b.localM) mesh
  ⟨tmat.m12, tmat.m13, tmat.m14⟩

/-- `setPosition(p, WORLD)` followed by `getPosition(WORLD)` on the same bone. -/
def roundTripWorld (pose : Option Matrix4) (b : BoneRef) (p : Vector3)
    (mesh : Option Matrix4) : Option Vector3 :=
  (setPositionWorld b p mesh).map (fun b2 => getPositionWorld pose b2 mesh)

/-! ### Hierarchy invariants and concrete bone instances -/

mutual

/-- The spec's hierarchy invariant at a node: the absolute transform equals the
local matrix times the parent's absolute transform, recursively below. -/
def absOK (parentAbs : Matrix4) : Bone → Prop
  | .mk s cs => s.absM = s.localM.mul parentAbs ∧ absOKForest s.absM cs

/-- The hierarchy invariant for every bone of a forest. -/
def absOKForest (parentAbs : Matrix4) : BoneForest → Prop
  | .nil => True
  | .cons c rest => absOK parentAbs c ∧ absOKForest parentAbs rest

end

mutual

/-- All inverted absolute transforms of a subtree, in preorder. -/
def collectInvAbs : Bone → List Matrix4
  | .mk s cs => s.invAbsM :: collectInvAbsForest cs

/-- All inverted absolute transforms of a forest, in preorder. -/
def collectInvAbsForest : BoneForest → List Matrix4
  | .nil => []
  | .cons c rest => collectInvAbs c ++ collectInvAbsForest rest

end

/-- The state the `Bone` constructor assembles before calling
`_updateDifferenceMatrix`: `_matrix = _baseMatrix = matrix`, identity scale
decomposition, derived transforms not yet computed. -/
def initBoneState (m : Matrix4) : BoneState :=
  { localM := m, baseM := m, absM := Matrix4.identity, invAbsM := Matrix4.identity,
    scaleM := Matrix4.identity, scaleV := ⟨1, 1, 1⟩ }

/-- A two-bone chain (root at the origin, child offset by `(1,0,0)`) with the
derived transforms established at construction time by
`_updateDifferenceMatrix`, as the `Bone` constructor does. -/
def chainSkeleton : Bone :=
  updateDifferenceMatrix none
    (.mk (initBoneState Matrix4.identity)
      (.cons (.mk (initBoneState (Matrix4.translation 1 0 0)) .nil) .nil))

/-- The chain after `root->translate((1,0,0), Space::LOCAL)` followed by a
forced `computeAbsoluteTransforms` from the root. -/
def c1AfterEdit : Bone :=
  computeAbsoluteTransforms none none (translateLocal ⟨1, 0, 0⟩ chainSkeleton)

/-- The child bone's state after the C1 edit. -/
def c1ChildAfter : BoneState :=
  match c1AfterEdit with
  | .mk _ (.cons c _) => c.state
  | _ => default

/-- The child bone's state in the freshly constructed chain. -/
def c3ChildBefore : BoneState :=
  match chainSkeleton with
  | .mk _ (.cons c _) => c.state
  | _ => default

/-- The chain after `root->scale(2, 1, 1, scaleChildren = false)`, with the
skeleton-wide recompute a subsequent world-space position read triggers. -/
def c3After : Bone :=
  computeAbsoluteTransforms none none (scaleBone 1 none 2 1 1 false none chainSkeleton)

/-- The child bone's state after the C3 scale with `scaleChildren = false`. -/
def c3ChildAfter : BoneState :=
  match c3After with
  | .mk _ (.cons c _) => c.state
  | _ => default

/-- The chain after `root->scale(2, 3, 4, scaleChildren = true)`. -/
def c3AfterTrue : Bone :=
  scaleBone 2 none 2 3 4 true none chainSkeleton

/-- The child bone's state after the C3 scale with `scaleChildren = true`. -/
def c3ChildAfterTrue : BoneState :=
  match c3AfterTrue with
  | .mk _ (.cons c _) => c.state
  | _ => default

/-- A concrete non-root bone for the C2 round trip: identity local matrix,
parent absolute transform a pure translation by `(1,2,3)`. -/
def c2Bone : BoneRef :=
  ⟨Matrix4.identity, some (Matrix4.translation 1 2 3)⟩

/-- A concrete root bone (`_parent == nullptr`). -/
def c2RootBone : BoneRef :=
  ⟨Matrix4.identity, none⟩

/-! ### Ray / box intersection (`culling/ray.cpp`) -/

/-- `std::abs` on the exact-rational model of `float`. -/
def absQ (x : ℚ) : ℚ :=
  if x < 0 then -x else x

/-- A ray: origin point, caller-normalized direction vector, maximum length. -/
structure Ray where
  origin : Vector3
  direction : Vector3
  length : ℚ
deriving DecidableEq, Repr

/-- The `0.0000001f` threshold of the slab test for near-zero direction
components, modelled as the exact rational `1/10^7`. -/
def slabEpsilon : ℚ := 1 / 10000000

/-- `std::numeric_limits<float>::max()` — the initial upper bound of the slab
interval — as its exact value `2^128 - 2^104`. -/
def floatMax : ℚ := 340282346638528859811704183484516925440

/-- One axis of `Ray::intersectsBoxMinMax`: when the direction component is
near zero the origin must lie inside the slab; otherwise the entry/exit
parametric distances are computed, swapped if inverted, and intersected with
the running interval `[d, maxValue]`, failing as soon as it empties.  `none`
models `return false`.  (The C++ `almost_equal(max, -infinity)` guard handles
float overflow to `-inf`; a finite rational division never produces an
infinity, so that branch cannot fire here.) -/
def slabAxis (originC dirC minC maxC d maxValue : ℚ) : Option (ℚ × ℚ) :=
  if absQ dirC < slabEpsilon then
    if originC < minC ∨ originC > maxC then none else some (d, maxValue)
  else
    let inv := 1 / dirC
    let mn := (minC - originC) * inv
    let mx := (maxC - originC) * inv
    let mn2 := if mn > mx then mx else mn
    let mx2 := if mn > mx then mn else mx
    let d2 := max mn2 d
    let maxValue2 := min mx2 maxValue
    if d2 > maxValue2 then none else some (d2, maxValue2)

/-- `Ray::intersectsBoxMinMax`: the slab method applied to the x, y and z axes
in turn, starting from the interval `[0, floatMax]`. -/
def intersectsBoxMinMax (r : Ray) (minimum maximum : Vector3) : Bool :=
  match slabAxis r.origin.x r.direction.x minimum.x maximum.x 0 floatMax with
  | none => false
  | some (d, mv) =>
    match slabAxis r.origin.y r.direction.y minimum.y maximum.y d mv with
    | none => false
    | some (d2, mv2) =>
      match slabAxis r.origin.z r.direction.z minimum.z maximum.z d2 mv2 with
      | none => false
      | some _ => true

/-! ### Device/state cache engine (`engine/engine.cpp`)

Device handles (`GL::IGLBuffer*`, `GL::IGLTexture*`, `GL::IGLFramebuffer*`,
`Effect*`) are modelled as `Option Nat`: `none` is the null pointer, `some i`
a live handle.  The `std::unordered_map` caches keyed by GL enum are modelled
as association lists. -/

/-- `GL::ARRAY_BUFFER` (0x8892). -/
def glArrayBuffer : Int := 34962

/-- `GL::ELEMENT_ARRAY_BUFFER` (0x8893). -/
def glElementArrayBuffer : Int := 34963

/-- `GL::TEXTURE_2D` (0x0DE1). -/
def glTexture2D : Int := 3553

/-- `map.find(key)` on an association list: `none` models `find == end`. -/
def cacheFind : List (Int × Option Nat) → Int → Option (Option Nat)
  | [], _ => none
  | (t, b) :: rest, target => if t = target then some b else cacheFind rest target

/-- `map[key] = value` on an association list (update or insert). -/
def cacheInsert : List (Int × Option Nat) → Int → Option Nat → List (Int × Option Nat)
  | [], target, buffer => [(target, buffer)]
  | (t, b) :: rest, target, buffer =>
    if t = target then (t, buffer) :: rest
    else (t, b) :: cacheInsert rest target buffer

/-- The engine state relevant to buffer binding and creation:
`_currentBoundBuffer`, `_cachedVertexBuffers`, a fresh-handle counter for
`_gl->createBuffer()`, and a count of the `_gl->bindBuffer` device calls
actually issued. -/
structure EngineState where
  currentBoundBuffer : List (Int × Option Nat)
  cachedVertexBuffers : Option Nat
  nextBufferId : Nat
  deviceBindCalls : Nat
deriving DecidableEq, Repr

/-- `Engine::bindBuffer`: issue the device call and update the cache only when
the target is uncached or cached with a different buffer. -/
def bindBuffer (e : EngineState) (buffer : Option Nat) (target : Int) : EngineState :=
  if cacheFind e.currentBoundBuffer target = none
      ∨ cacheFind e.currentBoundBuffer target ≠ some buffer then
    { e with
      currentBoundBuffer := cacheInsert e.currentBoundBuffer target buffer
      deviceBindCalls := e.deviceBindCalls + 1 }
  else e

/-- `Engine::bindArrayBuffer`. -/
def bindArrayBuffer (e : EngineState) (buffer : Option Nat) : EngineState :=
  bindBuffer e buffer glArrayBuffer

/-- A sequence of `bindArrayBuffer` calls. -/
def bindArrayBufferSeq (e : EngineState) : List (Option Nat) → EngineState
  | [] => e
  | b :: rest => bindArrayBufferSeq (bindArrayBuffer e b) rest

/-- A device buffer handle as the engine tracks it: its reference count and
whether `_gl->deleteBuffer` has released it. -/
structure GLBuffer where
  references : Int
  deleted : Bool
deriving DecidableEq, Repr

/-- `Engine::_releaseBuffer`: decrement the reference count; when it reaches
zero delete the device buffer and return `true`, otherwise return `false`. -/
def releaseBuffer (b : GLBuffer) : GLBuffer × Bool :=
  let b1 : GLBuffer := { b with references := b.references - 1 }
  if b1.references = 0 then ({ b1 with deleted := true }, true) else (b1, false)

/-- `Engine::_resetVertexBufferBinding`: bind the null array buffer and clear
`_cachedVertexBuffers`. -/
def resetVertexBufferBinding (e : EngineState) : EngineState :=
  let e1 := bindArrayBuffer e none
  { e1 with cachedVertexBuffers := none }

/-- `Engine::createVertexBuffer`: create a device buffer, bind it, upload the
vertex data (`_gl->bufferData`, no cached state change), reset the
array-buffer binding, and hand the buffer out with `references = 1`. -/
def createVertexBuffer (e : EngineState) (vertices : List ℚ) : EngineState × GLBuffer :=
  let vboId := e.nextBufferId
  let e1 : EngineState := { e with nextBufferId := e.nextBufferId + 1 }
  let e2 := bindArrayBuffer e1 (some vboId)
  let _upload := vertices
  let e3 := resetVertexBufferBinding e2
  (e3, { references := 1, deleted := false })

/-- A fresh engine (`unbound` caches, no device calls issued yet). -/
def initialEngineState : EngineState :=
  { currentBoundBuffer := [], cachedVertexBuffers := none,
    nextBufferId := 0, deviceBindCalls := 0 }

/-- A viewport as cached by `Engine::setViewport`. -/
structure Viewport where
  x : ℚ
  y : ℚ
  width : ℚ
  height : ℚ
deriving DecidableEq, Repr

/-- The engine state relevant to render-target switching: the cached current
framebuffer and render target, the cached viewport and the arguments of the
last `_gl->viewport` device call, the render surface size, the caches reset by
`wipeCaches`, the texture-unit cache with `_activeTexture`, and a count of the
`_gl->bindFramebuffer` device calls actually issued. -/
structure RenderEngineState where
  currentFramebuffer : Option Nat
  currentRenderTarget : Option Nat
  cachedViewport : Option Viewport
  glViewportRect : Option (ℚ × ℚ × ℚ × ℚ)
  canvasWidth : ℚ
  canvasHeight : ℚ
  cachedVertexBuffers : Option Nat
  cachedIndexBuffer : Option Nat
  currentEffect : Option Nat
  textureCache : List (Int × Option Nat)
  activeTexture : Int
  maxTextureChannels : Nat
  bindFramebufferCalls : Nat
deriving DecidableEq, Repr

/-- `Engine::resetTextureCache`: null every texture unit entry. -/
def resetTextureCache (e : RenderEngineState) : RenderEngineState :=
  { e with textureCache := (List.range e.maxTextureChannels).map (fun i => ((i : Int), none)) }

/-- `Engine::wipeCaches`: reset the texture cache, drop the current effect and
the cached vertex/index buffers.  (The stencil/depth-culling/alpha state
resets act on external state objects outside this model.) -/
def wipeCaches (e : RenderEngineState) : RenderEngineState :=
  let e1 := resetTextureCache e
  { e1 with currentEffect := none, cachedVertexBuffers := none, cachedIndexBuffer := none }

/-- `Engine::_bindTextureDirectly`: bind and cache the texture only when the
target has a cache entry holding a different texture (the C++ reads the guard
at key `target` but writes at key `_activeTexture`). -/
def bindTextureDirectly (e : RenderEngineState) (target : Int) (texture : Option Nat) :
    RenderEngineState :=
  if cacheFind e.textureCache target ≠ none
      ∧ cacheFind e.textureCache e.activeTexture ≠ some texture then
    { e with textureCache := cacheInsert e.textureCache e.activeTexture texture }
  else e

/-- `Engine::bindUnboundFramebuffer`: switch the device framebuffer only when
it differs from the cached current framebuffer. -/
def bindUnboundFramebuffer (e : RenderEngineState) (framebuffer : Option Nat) :
    RenderEngineState :=
  if e.currentFramebuffer ≠ framebuffer then
    { e with currentFramebuffer := framebuffer
             bindFramebufferCalls := e.bindFramebufferCalls + 1 }
  else e

/-- `Engine::setViewport`: cache the viewport and issue the device viewport
call scaled by the render surface size (`requiredWidth`/`requiredHeight`
default to 0, meaning the canvas size). -/
def setViewport (e : RenderEngineState) (viewport : Viewport)
    (requiredWidth requiredHeight : ℚ) : RenderEngineState :=
  let width := if requiredWidth ≠ 0 then requiredWidth else e.canvasWidth
  let height := if requiredHeight ≠ 0 then requiredHeight else e.canvasHeight
  { e with
    cachedViewport := some viewport
    glViewportRect := some (viewport.x * width, viewport.y * height,
      width * viewport.width, height * viewport.height) }

/-- `Engine::bindFramebuffer(texture, ...)`: record the render target, switch
the framebuffer through the cache-checked path, set the device viewport to the
texture (or required) size, and wipe the caches.  `texFramebuffer` is the
texture's `_framebuffer` handle. -/
def bindFramebuffer (e : RenderEngineState) (texId : Nat) (texFramebuffer : Option Nat)
    (texWidth texHeight requiredWidth requiredHeight : ℚ) : RenderEngineState :=
  let e1 : RenderEngineState := { e with currentRenderTarget := some texId }
  let e2 := bindUnboundFramebuffer e1 texFramebuffer
  let w := if requiredWidth = 0 then texWidth else requiredWidth
  let h := if requiredHeight = 0 then texHeight else requiredHeight
  let e3 : RenderEngineState := { e2 with glViewportRect := some (0, 0, w, h) }
  wipeCaches e3

/-- `Engine::unBindFramebuffer(texture, disableGenerateMipMaps)`: clear the
current render target, optionally regenerate mipmaps (which touches only the
texture-unit cache), and rebind the default framebuffer through the
cache-checked path.  It neither restores the viewport nor wipes the caches. -/
def unBindFramebuffer (e : RenderEngineState) (texId : Nat)
    (generateMipMaps disableGenerateMipMaps : Bool) : RenderEngineState :=
  let e1 : RenderEngineState := { e with currentRenderTarget := none }
  let e2 :=
    if generateMipMaps ∧ ¬disableGenerateMipMaps then
      bindTextureDirectly (bindTextureDirectly e1 glTexture2D (some texId)) glTexture2D none
    else e1
  bindUnboundFramebuffer e2 none

/-- `Engine::restoreDefaultFramebuffer`: clear the current render target,
rebind the default framebuffer, re-apply the last explicitly set viewport
(`*_cachedViewport` — a null cached viewport is dereferenced, modelled as
`none`), and wipe the caches. -/
def restoreDefaultFramebuffer (e : RenderEngineState) : Option RenderEngineState :=
  let e1 : RenderEngineState := { e with currentRenderTarget := none }
  let e2 := bindUnboundFramebuffer e1 none
  match e2.cachedViewport with
  | none => none
  | some v => some (wipeCaches (setViewport e2 v 0 0))

/-- A concrete render-engine state: a render target bound to framebuffer 5,
live caches, a device viewport that differs from the cached viewport. -/
def c8State : RenderEngineState :=
  { currentFramebuffer := some 5, currentRenderTarget := some 9,
    cachedViewport := some ⟨0, 0, 1, 1⟩, glViewportRect := some (7, 7, 7, 7),
    canvasWidth := 100, canvasHeight := 50,
    cachedVertexBuffers := some 3, cachedIndexBuffer := some 4, currentEffect := some 2,
    textureCache := [(glTexture2D, some 8)], activeTexture := 33984,
    maxTextureChannels := 2, bindFramebufferCalls := 0 }

/-! ### Animation range copying (`Bone::copyAnimationRange`) -/

/-- A keyframe: frame number and matrix value. -/
structure AnimationKey where
  frame : Int
  value : Matrix4
deriving DecidableEq, Repr

/-- Modelled from the spec: an animation track (class `Animation`,
`animation.cpp` is not among the sources) holds a sequence of
`(frame, matrix)` keys and named `(name → [from, to])` ranges. -/
structure Animation where
  keys : List AnimationKey
  ranges : List (String × Int × Int)
deriving DecidableEq, Repr

/-- Modelled from the spec: `Animation::getRange` looks up a named range. -/
def getRange (a : Animation) (rangeName : String) : Option (Int × Int) :=
  match a.ranges.find? (fun r => r.1 == rangeName) with
  | some r => some r.2
  | none => none

/-- The observable outcome of `copyAnimationRange`: a boolean result together
with the destination track's key list, or undefined behavior (an out-of-bounds
vector access or a null-pointer dereference). -/
inductive CopyOutcome where
  | undefinedBehavior : CopyOutcome
  | result : Bool → List AnimationKey → CopyOutcome
deriving DecidableEq, Repr

/-- `Bone::copyAnimationRange`.  A bone's `animations` member is a list of
possibly-null `Animation*` tracks.  The C++ guard is
`source->animations.empty() && !source->animations[0]`: when the list is empty
the second operand indexes an empty vector (undefined behavior); when it is
non-empty the `&&` short-circuits to false and the function proceeds, so a
null first track is dereferenced at `getRange` — the guard never returns
`false` under defined behavior.  `sourceLength`/`destLength` are the bones'
`length` members, the parent lengths are `none` when the bone has no parent.
The absent-range case follows the spec model of `getRange`; the C++ reads
`sourceRange.from` with no absence check. -/
def copyAnimationRange (sourceAnims destAnims : List (Option Animation))
    (rangeName : String) (frameOffset : Int) (rescaleAsRequired : Bool)
    (skelDimensionsRatio : Vector3) (hasSkelDimensionsRatio : Bool)
    (sourceLength destLength : Int)
    (sourceParentLength destParentLength : Option Int) : CopyOutcome :=
  if sourceAnims.isEmpty then
    .undefinedBehavior
  else
    match sourceAnims.head? with
    | none => .undefinedBehavior
    | some none => .undefinedBehavior
    | some (some src) =>
      match getRange src rangeName with
      | none => .undefinedBehavior
      | some (rFrom, rTo) =>
        let sourceKeys := src.keys
        let parentScalingReqd := rescaleAsRequired && sourceParentLength.isSome
            && decide (sourceLength > 0) && decide (destLength > 0)
            && decide (sourceLength ≠ destLength)
        let ratioResult : Option ℚ :=
          if parentScalingReqd then
            match destParentLength, sourceParentLength with
            | some pl, some spl => some ((pl : ℚ) / (spl : ℚ))
            | _, _ => none
          else some 0
        match ratioResult with
        | none => .undefinedBehavior
        | some parentRatio =>
          let dimensionsScalingReqd := rescaleAsRequired && destParentLength.isNone
              && hasSkelDimensionsRatio
              && !(decide (skelDimensionsRatio.x = 1) && decide (skelDimensionsRatio.y = 1)
                  && decide (skelDimensionsRatio.z = 1))
          match destAnims.head? with
          | none => .undefinedBehavior
          | some none => .undefinedBehavior
          | some (some dst) =>
            let copied := sourceKeys.filterMap (fun orig =>
              if rFrom ≤ orig.frame ∧ orig.frame ≤ rTo then
                some { frame := orig.frame + frameOffset
                       value :=
                         if rescaleAsRequired then
                           if parentScalingReqd then
                             orig.value.withTranslationXYZ
                               ⟨orig.value.m12 * parentRatio, orig.value.m13 * parentRatio,
                                 orig.value.m14 * parentRatio⟩
                           else if dimensionsScalingReqd then
                             orig.value.withTranslationXYZ
                               ⟨orig.value.m12 * skelDimensionsRatio.x,
                                 orig.value.m13 * skelDimensionsRatio.y,
                                 orig.value.m14 * skelDimensionsRatio.z⟩
                           else orig.value
                         else orig.value }
              else none)
            .result true (dst.keys ++ copied)

/-! ### Solid particle system (`particles/solid_particle_system.cpp`) -/

/-- A particle record as `_addParticle` stores it: global index, offset into
the flat position array recorded at insertion, shape id, index within the
shape's instances. -/
structure SolidParticle where
  idx : Nat
  pos : Nat
  shapeId : Int
  idxInShape : Nat
deriving DecidableEq, Repr

/-- The scratch copy particle (`_copy`) as customized per instance. -/
structure ParticleCopy where
  position : Vector3
  rotationEuler : Vector3
  rotationQuaternion : Option Vec4
  scaling : Vector3
  uvs : Vec4
  color : Option (ℚ × ℚ × ℚ × ℚ)

/-- `SolidParticleSystem::_resetCopy`. -/
def resetCopy : ParticleCopy :=
  { position := ⟨0, 0, 0⟩, rotationEuler := ⟨0, 0, 0⟩, rotationQuaternion := none,
    scaling := ⟨1, 1, 1⟩, uvs := ⟨0, 0, 1, 1⟩, color := none }

/-- The user callbacks of `SolidParticleSystemMeshBuilderOptions`: the position
callback customizes the reset copy from `(idx, idxInShape)`; the vertex
callback rewrites one shape vertex. -/
structure MeshBuilderOptions where
  positionFunction : Option (ParticleCopy → Nat → Nat → ParticleCopy)
  vertexFunction : Option (ParticleCopy → Vector3 → Nat → Vector3)

/-- `_quaternionRotationYPR`, relative to the external `std::sin`/`std::cos`
(supplied as function parameters `sinQ`/`cosQ`). -/
def quaternionRotationYPR (sinQ cosQ : ℚ → ℚ) (yaw pitch roll : ℚ) : Vec4 :=
  let halfroll := roll * (1 / 2)
  let halfpitch := pitch * (1 / 2)
  let halfyaw := yaw * (1 / 2)
  let sinRoll := sinQ halfroll
  let cosRoll := cosQ halfroll
  let sinPitch := sinQ halfpitch
  let cosPitch := cosQ halfpitch
  let sinYaw := sinQ halfyaw
  let cosYaw := cosQ halfyaw
  ⟨cosYaw * sinPitch * cosRoll + sinYaw * cosPitch * sinRoll,
    sinYaw * cosPitch * cosRoll - cosYaw * sinPitch * sinRoll,
    cosYaw * cosPitch * sinRoll - sinYaw * sinPitch * cosRoll,
    cosYaw * cosPitch * cosRoll + sinYaw * sinPitch * sinRoll⟩

/-- `_quaternionToRotationMatrix`. -/
def quaternionToRotationMatrix (q : Vec4) : Matrix4 :=
  ⟨1 - 2 * (q.y * q.y + q.z * q.z), 2 * (q.x * q.y + q.z * q.w),
    2 * (q.z * q.x - q.y * q.w), 0,
    2 * (q.x * q.y - q.z * q.w), 1 - 2 * (q.z * q.z + q.x * q.x),
    2 * (q.y * q.z + q.x * q.w), 0,
    2 * (q.z * q.x + q.y * q.w), 2 * (q.y * q.z - q.x * q.w),
    1 - 2 * (q.y * q.y + q.x * q.x), 0,
    0, 0, 0, 1⟩

/-- The copy particle and rotation matrix `_meshBuilder` derives before its
vertex loop: reset the copy, run the position callback, then build the
rotation matrix from the quaternion (explicit, or converted from the
yaw/pitch/roll Euler angles). -/
def buildCopy (sinQ cosQ : ℚ → ℚ) (opts : MeshBuilderOptions) (idx idxInShape : Nat) :
    ParticleCopy × Matrix4 :=
  let copy := match opts.positionFunction with
    | some f => f resetCopy idx idxInShape
    | none => resetCopy
  let q := match copy.rotationQuaternion with
    | some q0 => q0
    | none => quaternionRotationYPR sinQ cosQ
        copy.rotationEuler.y copy.rotationEuler.x copy.rotationEuler.z
  (copy, quaternionToRotationMatrix q)

/-- The vertex loop of `_meshBuilder`, position stream: for each shape vertex
(at running index `si`), apply the vertex callback, scale, rotate, translate,
and emit the three coordinates. -/
def positionBlock (copy : ParticleCopy) (rotMatrix : Matrix4)
    (vertexFn : Option (ParticleCopy → Vector3 → Nat → Vector3)) :
    List Vector3 → Nat → List ℚ
  | [], _ => []
  | v :: rest, si =>
    let vertex1 := match vertexFn with
      | some g => g copy v si
      | none => v
    let vertex2 : Vector3 :=
      ⟨vertex1.x * copy.scaling.x, vertex1.y * copy.scaling.y, vertex1.z * copy.scaling.z⟩
    let rotated := transformCoordinates vertex2 rotMatrix
    (copy.position.x + rotated.x) :: (copy.position.y + rotated.y)
      :: (copy.position.z + rotated.z) :: positionBlock copy rotMatrix vertexFn rest (si + 1)

/-- The vertex loop of `_meshBuilder`, uv stream (only run when the template
mesh carries uvs): remap each template uv pair into the copy's uv rectangle. -/
def uvBlock (copy : ParticleCopy) (meshUV : List ℚ) : List Vector3 → Nat → List ℚ
  | [], _ => []
  | _ :: rest, u =>
    ((copy.uvs.z - copy.uvs.x) * meshUV.getD u 0 + copy.uvs.x)
      :: ((copy.uvs.w - copy.uvs.y) * meshUV.getD (u + 1) 0 + copy.uvs.y)
      :: uvBlock copy meshUV rest (u + 2)

/-- The vertex loop of `_meshBuilder`, color stream: the copy's color when
set, else the template color when in range, else opaque white. -/
def colorBlock (copy : ParticleCopy) (meshCol : List ℚ) : List Vector3 → Nat → List ℚ
  | [], _ => []
  | _ :: rest, c =>
    let col : ℚ × ℚ × ℚ × ℚ :=
      match copy.color with
      | some cc => cc
      | none =>
        if ¬meshCol.isEmpty ∧ c + 3 < meshCol.length then
          (meshCol.getD c 0, meshCol.getD (c + 1) 0, meshCol.getD (c + 2) 0,
            meshCol.getD (c + 3) 0)
        else (1, 1, 1, 1)
    col.1 :: col.2.1 :: col.2.2.1 :: col.2.2.2 :: colorBlock copy meshCol rest (c + 4)

/-- The state of a `SolidParticleSystem` tracked by the embedding: the flat
arrays being accumulated (`_positions`, `_indices`, `_uvs`, `_colors`), the
baked `_positions32`, `nbParticles`, the running vertex offset `_index`, the
shape counter, the particle records, and the `updatable`/`pickable` flags
with the picked-particle list. -/
structure SPSState where
  nbParticles : Nat
  positions : List ℚ
  indices : List Nat
  uvs : List ℚ
  colors : List ℚ
  positions32 : List ℚ
  index : Nat
  shapeCounter : Int
  particles : List SolidParticle
  pickedParticles : List (Nat × Nat)
  updatable : Bool
  pickable : Bool

/-- `SolidParticleSystem::_meshBuilder`: append one particle instance's data
to the flat arrays — positions always, uvs only when the template has uvs,
colors always, indices offset by `p`, picked-particle entries when pickable.
(The `!recomputeNormals` branch only rotates a local temporary; its append is
commented out in the C++, so the normals array is untouched.) -/
def meshBuilder (sinQ cosQ : ℚ → ℚ) (p : Nat) (shape : List Vector3) (st : SPSState)
    (meshInd : List Nat) (meshUV meshCol : List ℚ) (idx idxInShape : Nat)
    (opts : MeshBuilderOptions) : SPSState :=
  let cm := buildCopy sinQ cosQ opts idx idxInShape
  { st with
    positions := st.positions ++ positionBlock cm.1 cm.2 opts.vertexFunction shape 0
    uvs := st.uvs ++ (if meshUV.isEmpty then [] else uvBlock cm.1 meshUV shape 0)
    colors := st.colors ++ colorBlock cm.1 meshCol shape 0
    indices := st.indices ++ meshInd.map (fun i => p + i)
    pickedParticles := st.pickedParticles ++
      (if st.pickable then (List.range (meshInd.length / 3)).map (fun i => (idx, i)) else []) }

/-- `_posToShape`: regroup the flat position array into 3-component vectors.
(The C++ loop reads `positions[i+1]`, `positions[i+2]` and is undefined on an
array whose length is not a multiple of 3; a trailing partial triple is
dropped here.) -/
def posToShape : List ℚ → List Vector3
  | x :: y :: z :: rest => ⟨x, y, z⟩ :: posToShape rest
  | _ => []

/-- The per-instance loop of `addShape`: run `_meshBuilder`, record the
particle (when updatable) with the position-array size at that point, advance
`_index` by the shape size, and advance `idx`/`i`. -/
def addShapeLoop (sinQ cosQ : ℚ → ℚ) (shape : List Vector3) (meshInd : List Nat)
    (meshUV meshCol : List ℚ) (opts : MeshBuilderOptions) :
    Nat → Nat → Nat → SPSState → SPSState
  | _, _, 0, st => st
  | idx, i, n + 1, st =>
    let st1 := meshBuilder sinQ cosQ st.index shape st meshInd meshUV meshCol idx i opts
    let st2 := if st1.updatable then
        { st1 with particles := st1.particles
            ++ [⟨idx, st1.positions.length, st1.shapeCounter, i⟩] }
      else st1
    let st3 := { st2 with index := st2.index + shape.length }
    addShapeLoop sinQ cosQ shape meshInd meshUV meshCol opts (idx + 1) (i + 1) n st3

/-- `SolidParticleSystem::addShape`: extract the shape from the template
mesh's streams, instantiate `nb` particles, bump `nbParticles` and the shape
counter, and return the new shape's id. -/
def addShape (sinQ cosQ : ℚ → ℚ) (st : SPSState) (meshPos : List ℚ) (meshInd : List Nat)
    (meshUV meshCol meshNor : List ℚ) (nb : Nat) (opts : MeshBuilderOptions) :
    SPSState × Int :=
  let shape := posToShape meshPos
  let _normals := meshNor
  let st1 := addShapeLoop sinQ cosQ shape meshInd meshUV meshCol opts st.nbParticles 0 nb st
  let st2 := { st1 with nbParticles := st1.nbParticles + nb
                        shapeCounter := st1.shapeCounter + 1 }
  (st2, st2.shapeCounter - 1)

/-- `SolidParticleSystem::buildMesh`: bake `_positions` into `_positions32`
(the `nbParticles == 0` branch builds and disposes a throwaway disc with its
`addShape` commented out, leaving this state untouched; the normal/uv/color
copies and the mesh object feed external collaborators), then free the
accumulators, dropping the particle records when the system is not
updatable. -/
def buildMesh (st : SPSState) : SPSState :=
  let st1 := { st with positions32 := st.positions }
  { st1 with positions := [], uvs := [], colors := []
             particles := if st1.updatable then st1.particles else [] }

/-- The arguments of one `addShape` call. -/
structure AddShapeCall where
  meshPos : List ℚ
  meshInd : List Nat
  meshUV : List ℚ
  meshCol : List ℚ
  meshNor : List ℚ
  nb : Nat
  opts : MeshBuilderOptions

/-- A sequence of `addShape` calls. -/
def runAddShapes (sinQ cosQ : ℚ → ℚ) (st : SPSState) : List AddShapeCall → SPSState
  | [] => st
  | c :: rest =>
    runAddShapes sinQ cosQ
      (addShape sinQ cosQ st c.meshPos c.meshInd c.meshUV c.meshCol c.meshNor c.nb c.opts).1
      rest

/-- A freshly constructed solid particle system. -/
def emptySPS (updatable pickable : Bool) : SPSState :=
  { nbParticles := 0, positions := [], indices := [], uvs := [], colors := [],
    positions32 := [], index := 0, shapeCounter := 0, particles := [],
    pickedParticles := [], updatable := updatable, pickable := pickable }

/-- Stub for the external `std::sin` at the only angle the concrete C9 system
uses (`sin 0 = 0`; rotations are all zero there). -/
def sinStub (x : ℚ) : ℚ := x * 0

/-- Stub for the external `std::cos` at the only angle the concrete C9 system
uses (`cos 0 = 1`). -/
def cosStub (x : ℚ) : ℚ := x * 0 + 1

/-- An `addShape` call instancing one quad (4 vertices, 2 triangles), no
callbacks. -/
def quadCall : AddShapeCall :=
  { meshPos := [0, 0, 0, 1, 0, 0, 1, 1, 0, 0, 1, 0]
    meshInd := [0, 1, 2, 0, 2, 3]
    meshUV := [0, 0, 1, 0, 1, 1, 0, 1]
    meshCol := []
    meshNor := []
    nb := 1
    opts := { positionFunction := none, vertexFunction := none } }

/-- The concrete C9 system: two 4-vertex shapes added via two `addShape`
calls on a fresh updatable system. -/
def c9System : SPSState :=
  runAddShapes sinStub cosStub (emptySPS true false) [quadCall, quadCall]

/-- The observables the C8 claim says unbinding resets: the last device
viewport rectangle and the caches nulled by `wipeCaches` (cached vertex
buffer, cached index buffer, current effect). -/
def rtObs (e : RenderEngineState) :
    Option (ℚ × ℚ × ℚ × ℚ) × Option Nat × Option Nat × Option Nat :=
  (e.glViewportRect, e.cachedVertexBuffers, e.cachedIndexBuffer, e.currentEffect)

/-- The render-target binding/unbinding contract (see the C8 theorem):
binding switches the framebuffer only on a change; `unBindFramebuffer`
restores the default framebuffer but preserves the viewport and the caches;
`restoreDefaultFramebuffer` restores the default framebuffer, re-applies the
cached viewport and wipes the caches. -/
def c8Conclusion (e : RenderEngineState) (texId tex2 : Nat) (texFramebuffer : Option Nat)
    (tw th rqw rqh : ℚ) (generateMipMaps disableGenerateMipMaps : Bool) (v : Viewport) : Prop :=
  ((bindFramebuffer e tex2 texFramebuffer tw th rqw rqh).currentFramebuffer = texFramebuffer
    ∧ (bindFramebuffer e tex2 texFramebuffer tw th rqw rqh).bindFramebufferCalls
        = e.bindFramebufferCalls + (if e.currentFramebuffer = texFramebuffer then 0 else 1))
  ∧ ((unBindFramebuffer e texId generateMipMaps disableGenerateMipMaps).currentFramebuffer = none
    ∧ rtObs (unBindFramebuffer e texId generateMipMaps disableGenerateMipMaps) = rtObs e)
  ∧ (((restoreDefaultFramebuffer e).getD e).currentFramebuffer = none
    ∧ ((restoreDefaultFramebuffer e).getD e).glViewportRect
        = some (v.x * e.canvasWidth, v.y * e.canvasHeight,
            e.canvasWidth * v.width, e.canvasHeight * v.height)
    ∧ ((restoreDefaultFramebuffer e).getD e).cachedVertexBuffers = none
    ∧ ((restoreDefaultFramebuffer e).getD e).cachedIndexBuffer = none
    ∧ ((restoreDefaultFramebuffer e).getD e).currentEffect = none)

/-! ## Theorems -/

/-- Row-vector action is compatible with matrix multiplication. -/
theorem Vec4.rowMul_mul (v : Vec4) (a b : Matrix4) :
    (v.rowMul a).rowMul b = v.rowMul (a.mul b) := by
  simp only [Vec4.rowMul, Matrix4.mul, Vec4.mk.injEq]
  refine ⟨by ring, by ring, by ring, by ring⟩

/-- The identity matrix acts trivially on row vectors. -/
theorem Vec4.rowMul_identity (v : Vec4) : v.rowMul Matrix4.identity = v := by
  cases v
  simp [Vec4.rowMul, Matrix4.identity]

/-- The translation row of a product is the translation row of the left factor
acted on by the right factor. -/
theorem Matrix4.row3_mul (a b : Matrix4) :
    (a.mul b).row3 = a.row3.rowMul b := by
  simp only [Matrix4.row3, Matrix4.mul, Vec4.rowMul]

mutual

/-- After `computeAbsoluteTransforms` below a known parent transform, the
hierarchy invariant holds at the node. -/
theorem absOK_computeAbsoluteTransforms (pose : Option Matrix4) (pa : Matrix4) (b : Bone) :
    absOK pa (computeAbsoluteTransforms pose (some pa) b) := by
  match b with
  | .mk s cs =>
    simp only [computeAbsoluteTransforms, absOK]
    exact ⟨rfl, absOKForest_computeAbsoluteTransformsForest pose (absOf pose (some pa) s.localM) cs⟩

/-- After the child loop of `computeAbsoluteTransforms`, the hierarchy
invariant holds throughout the forest. -/
theorem absOKForest_computeAbsoluteTransformsForest (pose : Option Matrix4) (pa : Matrix4)
    (cs : BoneForest) :
    absOKForest pa (computeAbsoluteTransformsForest pose pa cs) := by
  match cs with
  | .nil => simp only [computeAbsoluteTransformsForest, absOKForest]
  | .cons c rest =>
    simp only [computeAbsoluteTransformsForest, absOKForest]
    exact ⟨absOK_computeAbsoluteTransforms pose pa c,
      absOKForest_computeAbsoluteTransformsForest pose pa rest⟩

end

mutual

/-- `computeAbsoluteTransforms` never writes an inverted absolute transform. -/
theorem collectInvAbs_computeAbsoluteTransforms (pose parentAbs : Option Matrix4) (b : Bone) :
    collectInvAbs (computeAbsoluteTransforms pose parentAbs b) = collectInvAbs b := by
  match b with
  | .mk s cs =>
    simp only [computeAbsoluteTransforms, collectInvAbs,
      collectInvAbsForest_computeAbsoluteTransformsForest pose (absOf pose parentAbs s.localM) cs]

/-- The child loop of `computeAbsoluteTransforms` never writes an inverted
absolute transform. -/
theorem collectInvAbsForest_computeAbsoluteTransformsForest (pose : Option Matrix4)
    (pa : Matrix4) (cs : BoneForest) :
    collectInvAbsForest (computeAbsoluteTransformsForest pose pa cs) = collectInvAbsForest cs := by
  match cs with
  | .nil => rfl
  | .cons c rest =>
    simp only [computeAbsoluteTransformsForest, collectInvAbsForest,
      collectInvAbs_computeAbsoluteTransforms pose (some pa) c,
      collectInvAbsForest_computeAbsoluteTransformsForest pose pa rest]

end

/-- C1 (amended): for every bone tree — hence after any sequence of
`translate`/`rotate`/`scale` edits, which only change the stored matrices —
a forced `computeAbsoluteTransforms` establishes
`absolute_transform(bone) = local_matrix(bone) ⬝ absolute_transform(parent)`
for every non-root bone of the subtree; but it leaves every bone's inverted
absolute transform untouched (that matrix is recomputed only by
`_updateDifferenceMatrix`), so the inverted absolute transform is NOT in
general the inverse of the recomputed absolute transform. -/
theorem computeAbsoluteTransforms_invariant (pose parentAbs : Option Matrix4) (b : Bone) :
    absOKForest (computeAbsoluteTransforms pose parentAbs b).state.absM
      (computeAbsoluteTransforms pose parentAbs b).children
    ∧ collectInvAbs (computeAbsoluteTransforms pose parentAbs b) = collectInvAbs b := by
  constructor
  · match b with
    | .mk s cs =>
      simp only [computeAbsoluteTransforms, Bone.state, Bone.children]
      exact absOKForest_computeAbsoluteTransformsForest pose (absOf pose parentAbs s.localM) cs
  · exact collectInvAbs_computeAbsoluteTransforms pose parentAbs b

/-- C1 counterexample: in the two-bone chain, after a root translate and a
forced recompute, the child's inverted absolute transform is stale — it is not
the inverse of the child's absolute transform, contradicting the claim that it
is recomputed whenever the absolute transform changes. -/
theorem c1_invertedAbsolute_stale :
    c1ChildAfter.invAbsM ≠ Matrix4.invert c1ChildAfter.absM := by
  norm_num [c1ChildAfter, c1AfterEdit, chainSkeleton, initBoneState, translateLocal,
    computeAbsoluteTransforms, computeAbsoluteTransformsForest, updateDifferenceMatrix,
    updateDifferenceMatrixForest, absOf, Matrix4.translation, Matrix4.identity,
    Matrix4.mul, Matrix4.invert, Matrix4.addTranslationXYZ, Bone.state]

set_option maxHeartbeats 3000000 in
/-- C3: evaluation of `Bone::scale` at the failing input.  In the two-bone
chain the child sits at world position `(1,0,0)`; after `root->scale(2,1,1,
scaleChildren=false)` the child's world position has moved to `(2,0,0)` — the
child loop multiplies the child translation by `(x,y,z)` after already folding
in `scaleMat⁻¹`, double-applying the scale — while the `scaleChildren=true`
branch does multiply every descendant's local scale vector by the factors. -/
theorem c3_scale_moves_child :
    c3ChildBefore.absolutePosition = ⟨1, 0, 0⟩
    ∧ c3ChildAfter.absolutePosition = ⟨2, 0, 0⟩
    ∧ c3ChildAfterTrue.scaleV = ⟨2, 3, 4⟩ := by
  refine ⟨?_, ?_, ?_⟩ <;>
    norm_num [c3ChildBefore, c3ChildAfter, c3ChildAfterTrue, c3After, c3AfterTrue,
      chainSkeleton, initBoneState, scaleBone, scaleChildFix, forestMap,
      computeAbsoluteTransforms, computeAbsoluteTransformsForest, updateDifferenceMatrix,
      updateDifferenceMatrixForest, absOf, Matrix4.translation, Matrix4.identity,
      Matrix4.mul, Matrix4.invert, Matrix4.scaling, Bone.state, BoneState.absolutePosition]

/-- Transforming a point whose homogeneous image has `w = 1` agrees with the
row-vector action (no perspective divide occurs). -/
theorem toVec4_transformCoordinates (p : Vector3) (m : Matrix4)
    (hw : (p.toVec4.rowMul m).w = 1) :
    (transformCoordinates p m).toVec4 = p.toVec4.rowMul m := by
  cases p with
  | mk px py pz =>
    simp only [Vector3.toVec4, Vec4.rowMul, transformCoordinates, one_mul] at hw ⊢
    rw [hw]
    simp

/-- `Bone::setPosition` keeps the bottom-right entry of the local matrix. -/
theorem row3_withTranslationXYZ (a : Matrix4) (v : Vector3) :
    (a.withTranslationXYZ v).row3 = ⟨v.x, v.y, v.z, a.m15⟩ := rfl

/-- The translation row of `(lm ⬝ pa)` combined with an optional mesh matrix is
the translation row of `lm` acted on by `pa` combined with the mesh matrix. -/
theorem row3_combineWithMesh (lm pa : Matrix4) (mesh : Option Matrix4) :
    (combineWithMesh (lm.mul pa) mesh).row3 = lm.row3.rowMul (combineWithMesh pa mesh) := by
  cases mesh with
  | none => simp [combineWithMesh, Matrix4.row3_mul]
  | some w => simp [combineWithMesh, Matrix4.row3_mul, Vec4.rowMul_mul]

/-- C2 (amended): for every NON-ROOT bone — with or without a bound mesh —
whose combined parent transform `tmat` (parent absolute transform, times the
mesh world matrix when a mesh is bound) is invertible and maps the requested
point without a homogeneous divide (`w = 1`), and whose local matrix is
affine-normalized (`m15 = 1`), `setPosition(p, WORLD)` followed by
`getPosition(WORLD)` returns exactly `p`.  For a root bone the operation
dereferences the null parent and is undefined (see the counterexample). -/
theorem setPosition_getPosition_roundTrip (pose : Option Matrix4) (b : BoneRef)
    (pa : Matrix4) (p : Vector3) (mesh : Option Matrix4)
    (hpa : b.parentAbs = some pa)
    (h15 : b.localM.m15 = 1)
    (hinv : (combineWithMesh pa mesh).invert.mul (combineWithMesh pa mesh) = Matrix4.identity)
    (hw : (p.toVec4.rowMul (combineWithMesh pa mesh).invert).w = 1) :
    roundTripWorld pose b p mesh = some p := by
  have h1 : (b.localM.withTranslationXYZ
      (transformCoordinates p (combineWithMesh pa mesh).invert)).row3
      = p.toVec4.rowMul (combineWithMesh pa mesh).invert := by
    rw [row3_withTranslationXYZ, h15]
    exact toVec4_transformCoordinates p (combineWithMesh pa mesh).invert hw
  have hrow : (combineWithMesh ((b.localM.withTranslationXYZ
      (transformCoordinates p (combineWithMesh pa mesh).invert)).mul pa) mesh).row3
      = p.toVec4 := by
    rw [row3_combineWithMesh, h1, Vec4.rowMul_mul, hinv, Vec4.rowMul_identity]
  have hx := congrArg Vec4.x hrow
  have hy := congrArg Vec4.y hrow
  have hz := congrArg Vec4.z hrow
  cases p with
  | mk px py pz =>
    simp only [roundTripWorld, setPositionWorld, hpa, Option.map, getPositionWorld, absOf,
      Option.some.injEq]
    simp only [Vector3.mk.injEq]
    exact ⟨hx, hy, hz⟩

/-- C2 witness: the round trip at a concrete non-root bone whose parent
absolute transform is the translation by `(1,2,3)` returns the requested world
position `(5,6,7)` exactly. -/
theorem c2_roundTrip_witness :
    roundTripWorld none c2Bone ⟨5, 6, 7⟩ none = some ⟨5, 6, 7⟩ :=
  setPosition_getPosition_roundTrip none c2Bone (Matrix4.translation 1 2 3) ⟨5, 6, 7⟩ none
    rfl rfl
    (by norm_num [combineWithMesh, Matrix4.invert, Matrix4.mul, Matrix4.translation,
      Matrix4.identity])
    (by norm_num [combineWithMesh, Matrix4.invert, Matrix4.translation, Vec4.rowMul,
      Vector3.toVec4])

/-- C2 counterexample: on a root bone the claim fails — `setPosition(p, WORLD)`
dereferences the null `_parent`, so the round trip is undefined (modelled as
`none`) rather than returning `p`. -/
theorem c2_rootBone_roundTrip_fails :
    roundTripWorld none c2RootBone ⟨1, 2, 3⟩ none ≠ some ⟨1, 2, 3⟩ := by
  simp [roundTripWorld, setPositionWorld, c2RootBone]

/-- C10: `Bone::translate` and `Bone::setPosition` in `Space::WORLD` build the
inverse-parent transform from `_parent->getAbsoluteTransform()` with no null
check: they are defined exactly when the bone has a parent, and the embedding's
error branch (`none`) is unreachable exactly under that precondition. -/
theorem worldOps_parent_precondition (b : BoneRef) (v p : Vector3) (mesh : Option Matrix4) :
    ((translateWorld b v mesh).isSome ↔ b.parentAbs.isSome)
    ∧ ((setPositionWorld b p mesh).isSome ↔ b.parentAbs.isSome) := by
  cases hb : b.parentAbs <;> simp [translateWorld, setPositionWorld, hb]

/-- C5: `intersectsBoxMinMax` (the slab method as transliterated above) on the
ray with origin `(0,0,-5)`, direction `(0,0,1)` and length `10` returns `true`
against the box `min=(-1,-1,-1)`, `max=(1,1,1)`, and `false` against the same
box translated so that x ranges over `[5,7]`. -/
theorem c5_intersectsBoxMinMax_cases :
    intersectsBoxMinMax ⟨⟨0, 0, -5⟩, ⟨0, 0, 1⟩, 10⟩ ⟨-1, -1, -1⟩ ⟨1, 1, 1⟩ = true
    ∧ intersectsBoxMinMax ⟨⟨0, 0, -5⟩, ⟨0, 0, 1⟩, 10⟩ ⟨5, -1, -1⟩ ⟨7, 1, 1⟩ = false := by
  constructor <;>
    norm_num [intersectsBoxMinMax, slabAxis, slabEpsilon, floatMax, absQ]

/-- Looking up the just-inserted key returns the just-inserted value. -/
theorem cacheFind_cacheInsert (c : List (Int × Option Nat)) (t : Int) (b : Option Nat) :
    cacheFind (cacheInsert c t b) t = some b := by
  induction c with
  | nil => simp [cacheInsert, cacheFind]
  | cons hd tl ih =>
    obtain ⟨t', b'⟩ := hd
    by_cases h : t' = t
    · simp [cacheInsert, cacheFind, h]
    · simp [cacheInsert, cacheFind, h, ih]

/-- A cache miss issues the device call and updates the cache. -/
theorem bindArrayBuffer_miss (e : EngineState) (x : Option Nat)
    (hx : cacheFind e.currentBoundBuffer glArrayBuffer ≠ some x) :
    bindArrayBuffer e x
      = { e with currentBoundBuffer := cacheInsert e.currentBoundBuffer glArrayBuffer x
                 deviceBindCalls := e.deviceBindCalls + 1 } := by
  simp [bindArrayBuffer, bindBuffer, hx]

/-- A cache hit is a device no-op. -/
theorem bindArrayBuffer_hit (e : EngineState) (x : Option Nat)
    (hx : cacheFind e.currentBoundBuffer glArrayBuffer = some x) :
    bindArrayBuffer e x = e := by
  simp [bindArrayBuffer, bindBuffer, hx]

/-- C6: from any cache state in which `X` is not the cached array buffer,
`bindArrayBuffer(X)` twice in a row issues exactly one device bind call, and
`bindArrayBuffer` of `X`, then `Y`, then `X` (with `X ≠ Y`) issues exactly
three device bind calls. -/
theorem bindArrayBuffer_dedup (e : EngineState) (x y : Option Nat)
    (hxy : x ≠ y) (hx : cacheFind e.currentBoundBuffer glArrayBuffer ≠ some x) :
    (bindArrayBufferSeq e [x, x]).deviceBindCalls = e.deviceBindCalls + 1
    ∧ (bindArrayBufferSeq e [x, y, x]).deviceBindCalls = e.deviceBindCalls + 3 := by
  have s1 := bindArrayBuffer_miss e x hx
  have f1 : cacheFind (bindArrayBuffer e x).currentBoundBuffer glArrayBuffer = some x := by
    rw [s1]
    exact cacheFind_cacheInsert _ _ _
  constructor
  · show (bindArrayBuffer (bindArrayBuffer e x) x).deviceBindCalls = e.deviceBindCalls + 1
    rw [bindArrayBuffer_hit _ x f1, s1]
  · show (bindArrayBuffer (bindArrayBuffer (bindArrayBuffer e x) y) x).deviceBindCalls
      = e.deviceBindCalls + 3
    have hy : cacheFind (bindArrayBuffer e x).currentBoundBuffer glArrayBuffer ≠ some y := by
      rw [f1]
      simp [hxy]
    have s2 := bindArrayBuffer_miss (bindArrayBuffer e x) y hy
    have f2 : cacheFind (bindArrayBuffer (bindArrayBuffer e x) y).currentBoundBuffer
        glArrayBuffer = some y := by
      rw [s2]
      exact cacheFind_cacheInsert _ _ _
    have hx2 : cacheFind (bindArrayBuffer (bindArrayBuffer e x) y).currentBoundBuffer
        glArrayBuffer ≠ some x := by
      rw [f2]
      simp [Ne.symm hxy]
    have s3 := bindArrayBuffer_miss (bindArrayBuffer (bindArrayBuffer e x) y) x hx2
    rw [s3, s2, s1]

/-- C6 witness: on a fresh engine, binding buffer 1 twice issues one device
call, and binding 1, 2, 1 issues three. -/
theorem bindArrayBuffer_dedup_witness :
    (bindArrayBufferSeq initialEngineState [some 1, some 1]).deviceBindCalls = 0 + 1
    ∧ (bindArrayBufferSeq initialEngineState [some 1, some 2, some 1]).deviceBindCalls = 0 + 3 :=
  bindArrayBuffer_dedup initialEngineState (some 1) (some 2) (by decide) (by decide)

/-- C7: a freshly created vertex buffer carries `references = 1`; releasing a
buffer with `references = 1` deletes the device resource and returns `true`;
releasing a buffer with `references = 2` returns `false`, leaves the device
resource in its previous allocation state, and leaves the count at 1. -/
theorem buffer_reference_counting (e : EngineState) (vertices : List ℚ) (b1 b2 : GLBuffer)
    (h1 : b1.references = 1) (h2 : b2.references = 2) :
    (createVertexBuffer e vertices).2.references = 1
    ∧ releaseBuffer b1 = ({ references := 0, deleted := true }, true)
    ∧ releaseBuffer b2 = ({ b2 with references := 1 }, false) := by
  refine ⟨rfl, ?_, ?_⟩
  · simp [releaseBuffer, h1]
  · simp [releaseBuffer, h2]

/-- C7 witness: concrete buffers with reference counts 1 and 2. -/
theorem buffer_reference_counting_witness :
    (createVertexBuffer initialEngineState []).2.references = 1
    ∧ releaseBuffer ⟨1, false⟩ = (⟨0, true⟩, true)
    ∧ releaseBuffer ⟨2, false⟩ = (⟨1, false⟩, false) :=
  buffer_reference_counting initialEngineState [] ⟨1, false⟩ ⟨2, false⟩ rfl rfl

/-- `bindUnboundFramebuffer` always leaves the requested framebuffer current
(either it switched, or it was already current). -/
theorem bindUnboundFramebuffer_currentFramebuffer (e : RenderEngineState) (fb : Option Nat) :
    (bindUnboundFramebuffer e fb).currentFramebuffer = fb := by
  by_cases h : e.currentFramebuffer = fb <;> simp [bindUnboundFramebuffer, h]

/-- C8 part (a): `bindFramebuffer` makes the texture's framebuffer current and
issues a device `bindFramebuffer` call only when it differs from the cached
current framebuffer. -/
theorem bindFramebuffer_fields (e : RenderEngineState) (tex2 : Nat)
    (texFramebuffer : Option Nat) (tw th rqw rqh : ℚ) :
    (bindFramebuffer e tex2 texFramebuffer tw th rqw rqh).currentFramebuffer = texFramebuffer
    ∧ (bindFramebuffer e tex2 texFramebuffer tw th rqw rqh).bindFramebufferCalls
        = e.bindFramebufferCalls + (if e.currentFramebuffer = texFramebuffer then 0 else 1) := by
  unfold bindFramebuffer wipeCaches resetTextureCache bindUnboundFramebuffer
  by_cases h : e.currentFramebuffer = texFramebuffer <;> simp [h]

/-- `bindTextureDirectly` changes only the texture cache. -/
theorem bindTextureDirectly_rtObs (e : RenderEngineState) (target : Int) (texture : Option Nat) :
    rtObs (bindTextureDirectly e target texture) = rtObs e := by
  by_cases h : cacheFind e.textureCache target ≠ none
      ∧ cacheFind e.textureCache e.activeTexture ≠ some texture <;>
    simp [bindTextureDirectly, h, rtObs]

/-- `bindUnboundFramebuffer` changes neither the viewport nor the caches. -/
theorem bindUnboundFramebuffer_rtObs (e : RenderEngineState) (fb : Option Nat) :
    rtObs (bindUnboundFramebuffer e fb) = rtObs e := by
  by_cases h : e.currentFramebuffer = fb <;> simp [bindUnboundFramebuffer, h, rtObs]

/-- C8 part (b): `unBindFramebuffer` restores the default framebuffer but
leaves the device viewport and the caches wiped by `wipeCaches` untouched. -/
theorem unBindFramebuffer_fields (e : RenderEngineState) (texId : Nat)
    (generateMipMaps disableGenerateMipMaps : Bool) :
    (unBindFramebuffer e texId generateMipMaps disableGenerateMipMaps).currentFramebuffer = none
    ∧ rtObs (unBindFramebuffer e texId generateMipMaps disableGenerateMipMaps) = rtObs e := by
  constructor
  · simp only [unBindFramebuffer]
    exact bindUnboundFramebuffer_currentFramebuffer _ _
  · simp only [unBindFramebuffer]
    rw [bindUnboundFramebuffer_rtObs]
    by_cases hm : generateMipMaps = true ∧ ¬disableGenerateMipMaps = true
    · rw [if_pos hm, bindTextureDirectly_rtObs, bindTextureDirectly_rtObs]
      rfl
    · rw [if_neg hm]
      rfl

/-- C8 part (c): `restoreDefaultFramebuffer` restores the default framebuffer,
re-applies the last explicitly set viewport, and wipes the caches. -/
theorem restoreDefaultFramebuffer_fields (e : RenderEngineState) (v : Viewport)
    (hv : e.cachedViewport = some v) :
    ((restoreDefaultFramebuffer e).getD e).currentFramebuffer = none
    ∧ ((restoreDefaultFramebuffer e).getD e).glViewportRect
        = some (v.x * e.canvasWidth, v.y * e.canvasHeight,
            e.canvasWidth * v.width, e.canvasHeight * v.height)
    ∧ ((restoreDefaultFramebuffer e).getD e).cachedVertexBuffers = none
    ∧ ((restoreDefaultFramebuffer e).getD e).cachedIndexBuffer = none
    ∧ ((restoreDefaultFramebuffer e).getD e).currentEffect = none := by
  have h2 : (bindUnboundFramebuffer { e with currentRenderTarget := none } none).cachedViewport
      = some v := by
    by_cases h : e.currentFramebuffer = none <;> simp [bindUnboundFramebuffer, h, hv]
  simp only [restoreDefaultFramebuffer, h2, Option.getD_some]
  by_cases hfb : e.currentFramebuffer = none <;>
    simp [bindUnboundFramebuffer, hfb, wipeCaches, resetTextureCache, setViewport]

/-- C8 (amended/corrected): binding a render texture switches the active
framebuffer only when it differs from the cached current framebuffer;
`unBindFramebuffer` restores the default framebuffer but neither restores the
last explicitly set viewport nor triggers `wipeCaches`; it is
`restoreDefaultFramebuffer` that restores the default framebuffer AND the last
explicitly set viewport AND always triggers `wipeCaches` (nulling the cached
vertex/index buffer and effect and resetting the texture cache). -/
theorem render_target_switching (e : RenderEngineState) (texId tex2 : Nat)
    (texFramebuffer : Option Nat) (tw th rqw rqh : ℚ)
    (generateMipMaps disableGenerateMipMaps : Bool) (v : Viewport)
    (hv : e.cachedViewport = some v) :
    c8Conclusion e texId tex2 texFramebuffer tw th rqw rqh
      generateMipMaps disableGenerateMipMaps v := by
  unfold c8Conclusion
  exact ⟨bindFramebuffer_fields e tex2 texFramebuffer tw th rqw rqh,
    unBindFramebuffer_fields e texId generateMipMaps disableGenerateMipMaps,
    restoreDefaultFramebuffer_fields e v hv⟩

/-- C8 witness: the render-target contract at the concrete engine state
`c8State` (framebuffer 5 bound, caches live, device viewport `(7,7,7,7)`). -/
theorem render_target_switching_witness :
    c8Conclusion c8State 9 6 (some 12) 64 32 0 0 false false ⟨0, 0, 1, 1⟩ :=
  render_target_switching c8State 9 6 (some 12) 64 32 0 0 false false ⟨0, 0, 1, 1⟩ rfl

/-- C8 counterexample: at `c8State`, `unBindFramebuffer` leaves the cached
vertex buffer alive and the device viewport unrestored — whereas `wipeCaches`,
which the claim says is always triggered on unbinding, would null the cached
vertex buffer. -/
theorem c8_unBind_no_wipe_no_viewport :
    (unBindFramebuffer c8State 9 false false).cachedVertexBuffers = some 3
    ∧ (unBindFramebuffer c8State 9 false false).glViewportRect = some (7, 7, 7, 7)
    ∧ (wipeCaches c8State).cachedVertexBuffers = none := by
  norm_num [unBindFramebuffer, bindTextureDirectly, bindUnboundFramebuffer, wipeCaches,
    resetTextureCache, c8State, Option.some_ne_none]

/-- C4: evaluation of `copyAnimationRange` at the failing inputs.  With an
empty source animation list the guard `empty() && !animations[0]` itself
indexes the empty vector (undefined behavior); with a non-empty list whose
first track is null the guard short-circuits to false and the null track is
dereferenced at `getRange`.  In neither absent-track case does the function
return `false` as the claim requires. -/
theorem c4_copyAnimationRange_guard_ub :
    copyAnimationRange [] [some ⟨[], []⟩] "walk" 0 false ⟨1, 1, 1⟩ false 1 1 none none
      = .undefinedBehavior
    ∧ copyAnimationRange [none] [some ⟨[], []⟩] "walk" 0 false ⟨1, 1, 1⟩ false 1 1 none none
      = .undefinedBehavior := by
  constructor <;> rfl

/-- The position stream block of one particle instance holds exactly three
entries per shape vertex. -/
theorem positionBlock_length (copy : ParticleCopy) (rotMatrix : Matrix4)
    (vertexFn : Option (ParticleCopy → Vector3 → Nat → Vector3)) (shape : List Vector3) :
    ∀ si, (positionBlock copy rotMatrix vertexFn shape si).length = 3 * shape.length := by
  induction shape with
  | nil => intro si; simp [positionBlock]
  | cons v rest ih =>
    intro si
    simp only [positionBlock, List.length_cons, ih]
    omega

/-- `_meshBuilder` grows the flat position array by exactly `3 ⬝ |shape|`. -/
theorem meshBuilder_positions_length (sinQ cosQ : ℚ → ℚ) (p : Nat) (shape : List Vector3)
    (st : SPSState) (meshInd : List Nat) (meshUV meshCol : List ℚ) (idx i : Nat)
    (opts : MeshBuilderOptions) :
    (meshBuilder sinQ cosQ p shape st meshInd meshUV meshCol idx i opts).positions.length
      = st.positions.length + 3 * shape.length := by
  simp [meshBuilder, positionBlock_length]

/-- The instancing loop of `addShape` leaves `nbParticles` and the updatable
flag unchanged and grows the position array by `n ⬝ 3 ⬝ |shape|`. -/
theorem addShapeLoop_spec (sinQ cosQ : ℚ → ℚ) (shape : List Vector3) (meshInd : List Nat)
    (meshUV meshCol : List ℚ) (opts : MeshBuilderOptions) :
    ∀ (n idx i : Nat) (st : SPSState),
      (addShapeLoop sinQ cosQ shape meshInd meshUV meshCol opts idx i n st).nbParticles
          = st.nbParticles
      ∧ (addShapeLoop sinQ cosQ shape meshInd meshUV meshCol opts idx i n st).positions.length
          = st.positions.length + n * (3 * shape.length)
      ∧ (addShapeLoop sinQ cosQ shape meshInd meshUV meshCol opts idx i n st).updatable
          = st.updatable := by
  intro n
  induction n with
  | zero => intro idx i st; simp [addShapeLoop]
  | succ n ih =>
    intro idx i st
    simp only [addShapeLoop]
    by_cases h : (meshBuilder sinQ cosQ st.index shape st meshInd meshUV meshCol
        idx i opts).updatable
    · rw [if_pos h]
      refine ⟨?_, ?_, ?_⟩
      · rw [(ih _ _ _).1]
        rfl
      · rw [(ih _ _ _).2.1]
        simp only [meshBuilder, List.length_append, positionBlock_length]
        ring
      · rw [(ih _ _ _).2.2]
        rfl
    · rw [if_neg h]
      refine ⟨?_, ?_, ?_⟩
      · rw [(ih _ _ _).1]
        rfl
      · rw [(ih _ _ _).2.1]
        simp only [meshBuilder, List.length_append, positionBlock_length]
        ring
      · rw [(ih _ _ _).2.2]
        rfl

/-- `addShape` adds `nb` to `nbParticles` and `nb ⬝ 3 ⬝ |shape|` flat position
entries. -/
theorem addShape_spec (sinQ cosQ : ℚ → ℚ) (st : SPSState) (meshPos : List ℚ)
    (meshInd : List Nat) (meshUV meshCol meshNor : List ℚ) (nb : Nat)
    (opts : MeshBuilderOptions) :
    (addShape sinQ cosQ st meshPos meshInd meshUV meshCol meshNor nb opts).1.nbParticles
        = st.nbParticles + nb
    ∧ (addShape sinQ cosQ st meshPos meshInd meshUV meshCol meshNor nb opts).1.positions.length
        = st.positions.length + nb * (3 * (posToShape meshPos).length)
    ∧ (addShape sinQ cosQ st meshPos meshInd meshUV meshCol meshNor nb opts).1.updatable
        = st.updatable := by
  obtain ⟨h1, h2, h3⟩ := addShapeLoop_spec sinQ cosQ (posToShape meshPos) meshInd meshUV
    meshCol opts nb st.nbParticles 0 st
  exact ⟨by simp only [addShape]; rw [h1], by simp only [addShape]; rw [h2],
    by simp only [addShape]; rw [h3]⟩

/-- Over a sequence of `addShape` calls, `nbParticles` grows by the sum of the
requested counts and the flat position array by the matching vertex total. -/
theorem runAddShapes_spec (sinQ cosQ : ℚ → ℚ) :
    ∀ (calls : List AddShapeCall) (st : SPSState),
      (runAddShapes sinQ cosQ st calls).nbParticles
          = st.nbParticles + (calls.map (fun c => c.nb)).sum
      ∧ (runAddShapes sinQ cosQ st calls).positions.length
          = st.positions.length
            + (calls.map (fun c => c.nb * (3 * (posToShape c.meshPos).length))).sum := by
  intro calls
  induction calls with
  | nil => intro st; simp [runAddShapes]
  | cons c rest ih =>
    intro st
    obtain ⟨ha, hb, _⟩ := addShape_spec sinQ cosQ st c.meshPos c.meshInd c.meshUV c.meshCol
      c.meshNor c.nb c.opts
    obtain ⟨hc, hd⟩ := ih (addShape sinQ cosQ st c.meshPos c.meshInd c.meshUV c.meshCol
      c.meshNor c.nb c.opts).1
    constructor
    · simp only [runAddShapes, List.map_cons, List.sum_cons]
      rw [hc, ha]
      omega
    · simp only [runAddShapes, List.map_cons, List.sum_cons]
      rw [hd, hb]
      omega

/-- C9: for every sequence of `addShape` calls, `nbParticles` equals the sum
of the requested instance counts and the flat position array (as baked into
`positions32` by `buildMesh`) holds exactly `shapeVertexCount ⬝ 3` entries per
instance — each particle's data being appended as one contiguous block; in
particular the concrete system built from 2 shapes of 4 vertices each has
`nbParticles = 2` and a position array of length `2 ⬝ 4 ⬝ 3` after
`buildMesh`. -/
theorem sps_particle_invariant (sinQ cosQ : ℚ → ℚ) (st : SPSState)
    (calls : List AddShapeCall) :
    ((runAddShapes sinQ cosQ st calls).nbParticles
        = st.nbParticles + (calls.map (fun c => c.nb)).sum
      ∧ (buildMesh (runAddShapes sinQ cosQ st calls)).positions32.length
        = st.positions.length
          + (calls.map (fun c => c.nb * (3 * (posToShape c.meshPos).length))).sum)
    ∧ (c9System.nbParticles = 2 ∧ (buildMesh c9System).positions32.length = 2 * 4 * 3) := by
  refine ⟨⟨(runAddShapes_spec sinQ cosQ calls st).1, ?_⟩, ?_, ?_⟩
  · have h2 := (runAddShapes_spec sinQ cosQ calls st).2
    simpa [buildMesh] using h2
  · have h1 := (runAddShapes_spec sinStub cosStub [quadCall, quadCall] (emptySPS true false)).1
    show (runAddShapes sinStub cosStub (emptySPS true false) [quadCall, quadCall]).nbParticles = 2
    rw [h1]
    rfl
  · have h2 := (runAddShapes_spec sinStub cosStub [quadCall, quadCall] (emptySPS true false)).2
    show (buildMesh (runAddShapes sinStub cosStub (emptySPS true false)
      [quadCall, quadCall])).positions32.length = 2 * 4 * 3
    have hb : (buildMesh (runAddShapes sinStub cosStub (emptySPS true false)
        [quadCall, quadCall])).positions32.length
        = (runAddShapes sinStub cosStub (emptySPS true false)
            [quadCall, quadCall]).positions.length := rfl
    rw [hb, h2]
    rfl

end Babylon
